import Mathlib

/-!
Shallow embedding of `src/wy_module.c` (a simple Linux character-device
kernel module) and proofs of its specification's properties.

Modelling conventions:
* Machine integers are `Nat`/`Int`; bytes are `Nat` values below 256.
* `params_t` is the C struct `{ uint32_t cmd; uint32_t* vaddr; uint32_t len; }`.
  Following the spec's data model (32-bit-wide pointer-sized `targetAddress`),
  the struct layout is three packed little-endian 32-bit words: 12 bytes total.
* The module's static state (`wy_module_open_count` and the `params` buffer)
  is an explicit `ModuleState` record threaded through the operations.
* The external kernel authority (`register_chrdev`, `class_create`,
  `device_create`, ...) is an oracle record `Authority` giving each call's
  result; init/exit results include the trace of authority calls made.
-/

namespace WyModule

/-- Byte size `sizeof(params_t)`: three packed 32-bit fields, 12 bytes. -/
def sizeof_params : Nat := 12

/-- Linux errno `EBUSY`. -/
def EBUSY : Int := 16

/-- Reassemble a little-endian 32-bit word from four bytes. -/
def fromBytesLE4 (b0 b1 b2 b3 : Nat) : Nat :=
  b0 + 256 * b1 + 65536 * b2 + 16777216 * b3

/-- Split a 32-bit word into four little-endian bytes. -/
def toBytesLE4 (n : Nat) : List Nat :=
  [n % 256, n / 256 % 256, n / 256 / 256 % 256, n / 256 / 256 / 256 % 256]

/-- The C struct `params_t` as an in-memory record. -/
structure params_t where
  cmd   : Nat
  vaddr : Nat
  len   : Nat
deriving DecidableEq, Repr

/-- A record is valid when each field fits its 32-bit slot. -/
def params_t.Valid (p : params_t) : Prop :=
  p.cmd < 4294967296 ∧ p.vaddr < 4294967296 ∧ p.len < 4294967296

/-- Serialize a `params_t` to its 12-byte memory image (spec §4.1 `encode`). -/
def encode_params (p : params_t) : List Nat :=
  toBytesLE4 p.cmd ++ toBytesLE4 p.vaddr ++ toBytesLE4 p.len

/-- Deserialize a 12-byte image to a `params_t`; any other length is a
`RecordSizeError`, rendered as `none` (spec §4.1 `decode`). -/
def decode_params (bytes : List Nat) : Option params_t :=
  match bytes with
  | [c0, c1, c2, c3, a0, a1, a2, a3, l0, l1, l2, l3] =>
      some ⟨fromBytesLE4 c0 c1 c2 c3, fromBytesLE4 a0 a1 a2 a3,
            fromBytesLE4 l0 l1 l2 l3⟩
  | _ => none

/-- The module's static mutable state: `wy_module_open_count` and the raw
bytes of the static `params` struct. -/
structure ModuleState where
  wy_module_open_count : Int
  params : List Nat
deriving DecidableEq, Repr

/-- State at module load: open count 0, `params` zero-initialised static. -/
def initState : ModuleState :=
  { wy_module_open_count := 0, params := List.replicate sizeof_params 0 }

/-- The open handler `wy_module_open`: if the device is open (`wy_module_open_count` nonzero)
return `-EBUSY`; otherwise increment the count and return 0. -/
def wy_module_open (s : ModuleState) : Int × ModuleState :=
  if s.wy_module_open_count ≠ 0 then
    (-EBUSY, s)
  else
    (0, { s with wy_module_open_count := s.wy_module_open_count + 1 })

/-- The close handler `wy_module_release`: decrement `wy_module_open_count` if nonzero;
always return 0. -/
def wy_module_release (s : ModuleState) : Int × ModuleState :=
  if s.wy_module_open_count ≠ 0 then
    (0, { s with wy_module_open_count := s.wy_module_open_count - 1 })
  else
    (0, s)

/-- The `cmd` field read out of the `params` byte buffer (the C code's
`params.cmd`, the first little-endian 32-bit word of the struct). -/
def params_cmd (bytes : List Nat) : Nat :=
  match bytes with
  | c0 :: c1 :: c2 :: c3 :: _ => fromBytesLE4 c0 c1 c2 c3
  | _ => 0

/-- The `switch (params.cmd)` in `wy_module_write`: only a `default` branch
that logs; no state change for any command value. -/
def wy_module_cmd_dispatch (_cmd : Nat) (s : ModuleState) : ModuleState := s

/-- The write handler `wy_module_write`: reject any length other than `sizeof(params_t)` with
return 0 and no copy; otherwise copy `len` caller bytes into `params`,
dispatch on `params.cmd`, and return the number of bytes consumed. -/
def wy_module_write (buffer : List Nat) (len : Nat) (s : ModuleState) :
    Int × ModuleState :=
  if len ≠ sizeof_params then
    (0, s)
  else
    let newParams := buffer.take len
    ((len : Int),
     wy_module_cmd_dispatch (params_cmd newParams) { s with params := newParams })

/-- The read handler `wy_module_read`: reject any length other than `sizeof(params_t)` with
return 0 and no bytes produced; otherwise copy `len` bytes of `params` to the
caller and return the count. Result: (return value, bytes produced, state). -/
def wy_module_read (len : Nat) (s : ModuleState) : Int × List Nat × ModuleState :=
  if len ≠ sizeof_params then
    (0, [], s)
  else
    ((len : Int), s.params.take len, s)

end WyModule

namespace WyModule

/-- Trace events: the calls the module makes into the kernel authority. -/
inductive AuthCall where
  | registerChrdev
  | unregisterChrdev
  | classCreate
  | classUnregister
  | classDestroy
  | deviceCreate
  | deviceDestroy
deriving DecidableEq, Repr

/-- Oracle for the external authority's results during `wy_module_init`.
`unregister_chrdev_err` is any internal error the (void-returning)
deregistration encounters; the module cannot observe it. -/
structure Authority where
  register_chrdev_result : Int
  class_create_ok        : Bool
  class_create_err       : Int
  device_create_ok       : Bool
  device_create_err      : Int
  unregister_chrdev_err  : Int
deriving DecidableEq, Repr

/-- Module load `wy_module_init`: register the chrdev (abort on negative major number),
create the class (on failure: unregister the chrdev, return `PTR_ERR(class)`),
create the device (on failure: destroy the class, unregister the chrdev,
return `PTR_ERR(device)`), else return 0. Result: (return value, call trace). -/
def wy_module_init (a : Authority) : Int × List AuthCall :=
  if a.register_chrdev_result < 0 then
    (a.register_chrdev_result, [.registerChrdev])
  else if !a.class_create_ok then
    (a.class_create_err, [.registerChrdev, .classCreate, .unregisterChrdev])
  else if !a.device_create_ok then
    (a.device_create_err,
     [.registerChrdev, .classCreate, .deviceCreate, .classDestroy,
      .unregisterChrdev])
  else
    (0, [.registerChrdev, .classCreate, .deviceCreate])

/-- Module unload `wy_module_exit`: unconditionally destroy the device, unregister and
destroy the class, and unregister the chrdev, in that order; the module
state (in particular `wy_module_open_count`) is never consulted. -/
def wy_module_exit (_s : ModuleState) : List AuthCall :=
  [.deviceDestroy, .classUnregister, .classDestroy, .unregisterChrdev]

/-- The spec's lifecycle states (§3 `EndpointState`). -/
inductive EndpointState where
  | Unregistered
  | Registered
  | ClassBound
  | Exposed
  | Failed
deriving DecidableEq, Repr

/-- The spec's abstraction of lifecycle state, read off a call trace by which
authority resources remain held (a resource is held when its create calls
outnumber its destroy calls). -/
def endpointStateOf (tr : List AuthCall) : EndpointState :=
  if tr.count .deviceDestroy < tr.count .deviceCreate then .Exposed
  else if tr.count .classDestroy < tr.count .classCreate then .ClassBound
  else if tr.count .unregisterChrdev < tr.count .registerChrdev then .Registered
  else .Unregistered

/-- Client-visible operations once the endpoint is live (spec §6). -/
inductive Op where
  | acquire
  | release
  | read (len : Nat)
  | write (buffer : List Nat) (len : Nat)

/-- One operation's effect on the module state. -/
def step (s : ModuleState) (op : Op) : ModuleState :=
  match op with
  | .acquire          => (wy_module_open s).2
  | .release          => (wy_module_release s).2
  | .read len         => (wy_module_read len s).2.2
  | .write buffer len => (wy_module_write buffer len s).2

/-- Run a sequence of operations from the module's initial state. -/
def run (ops : List Op) : ModuleState := ops.foldl step initState

/-! ## Theorems -/

/-- C1: acquire on a state with `HolderCount = 0` returns 0 and sets the
count to 1; acquire on a state with `HolderCount = 1` returns `-EBUSY` and
leaves the whole state (count and holder) unchanged; and from a held state,
a release followed by an acquire succeeds again. -/
theorem acquire_exclusive (s : ModuleState) :
    (s.wy_module_open_count = 0 →
      wy_module_open s = (0, { s with wy_module_open_count := 1 })) ∧
    (s.wy_module_open_count = 1 →
      wy_module_open s = (-EBUSY, s)) ∧
    (s.wy_module_open_count = 1 →
      (wy_module_open (wy_module_release s).2).1 = 0 ∧
      (wy_module_open (wy_module_release s).2).2.wy_module_open_count = 1) := by
  refine ⟨fun h => ?_, fun h => ?_, fun h => ?_⟩
  · simp [wy_module_open, h]
  · simp [wy_module_open, h, EBUSY]
  · simp [wy_module_open, wy_module_release, h]

/-- Closed instance of C1 at concrete states. -/
theorem acquire_exclusive_witness :
    wy_module_open initState =
      (0, { wy_module_open_count := 1, params := List.replicate 12 0 }) ∧
    wy_module_open { wy_module_open_count := 1, params := [] } =
      (-EBUSY, { wy_module_open_count := 1, params := [] }) ∧
    (wy_module_open
      (wy_module_release { wy_module_open_count := 1, params := [] }).2).1 = 0 := by
  refine ⟨?_, ?_, ?_⟩
  · have h := (acquire_exclusive initState).1 rfl
    simpa [initState, sizeof_params] using h
  · exact (acquire_exclusive { wy_module_open_count := 1, params := [] }).2.1 rfl
  · exact ((acquire_exclusive
      { wy_module_open_count := 1, params := [] }).2.2 rfl).1

/-- C2: a write or read whose length is not `sizeof(params_t)` returns 0,
transfers no bytes, and leaves the entire module state unchanged. -/
theorem size_guard (len : Nat) (buffer : List Nat) (s : ModuleState)
    (h : len ≠ sizeof_params) :
    wy_module_write buffer len s = (0, s) ∧
    wy_module_read len s = (0, [], s) := by
  simp [wy_module_write, wy_module_read, h]

/-- Closed instance of C2 at a concrete wrong length. -/
theorem size_guard_witness :
    wy_module_write [1, 2, 3] 3 initState = (0, initState) ∧
    wy_module_read 3 initState = (0, [], initState) :=
  size_guard 3 [1, 2, 3] initState (by decide)

/-- C4: release always returns 0; from `HolderCount = 1` it sets the count
to 0; from `HolderCount = 0` it is a no-op on the whole state; and from any
state with nonnegative count, two consecutive releases both return 0 and
leave the count nonnegative. -/
theorem release_idempotent (s : ModuleState) :
    (wy_module_release s).1 = 0 ∧
    (s.wy_module_open_count = 1 →
      (wy_module_release s).2.wy_module_open_count = 0) ∧
    (s.wy_module_open_count = 0 → (wy_module_release s).2 = s) ∧
    (0 ≤ s.wy_module_open_count →
      (wy_module_release (wy_module_release s).2).1 = 0 ∧
      0 ≤ (wy_module_release
            (wy_module_release s).2).2.wy_module_open_count) := by
  refine ⟨?_, fun h => ?_, fun h => ?_, fun h => ⟨?_, ?_⟩⟩
  · simp only [wy_module_release]; split <;> rfl
  · simp [wy_module_release, h]
  · simp [wy_module_release, h]
  · simp only [wy_module_release]; split_ifs <;> rfl
  · simp only [wy_module_release]
    split_ifs <;> simp_all
    omega

/-- Closed instance of C4 at concrete states. -/
theorem release_idempotent_witness :
    (wy_module_release { wy_module_open_count := 1, params := [] }).1 = 0 ∧
    (wy_module_release
      { wy_module_open_count := 1, params := [] }).2.wy_module_open_count = 0 ∧
    (wy_module_release initState).2 = initState ∧
    0 ≤ (wy_module_release
          (wy_module_release initState).2).2.wy_module_open_count := by
  refine ⟨(release_idempotent _).1, ?_, ?_, ?_⟩
  · exact (release_idempotent
      { wy_module_open_count := 1, params := [] }).2.1 rfl
  · exact (release_idempotent initState).2.2.1 rfl
  · exact ((release_idempotent initState).2.2.2 (by decide)).2

/-- C10: a read of any length leaves the module state (stored record and
holder count included) exactly as it was, and two consecutive
exact-length reads return identical byte sequences. -/
theorem read_state_preserving (len : Nat) (s : ModuleState) :
    (wy_module_read len s).2.2 = s ∧
    (wy_module_read sizeof_params
        ((wy_module_read sizeof_params s).2.2)).2.1 =
      (wy_module_read sizeof_params s).2.1 := by
  constructor
  · simp only [wy_module_read]; split <;> rfl
  · simp [wy_module_read]

/-- C6: a write of exactly `sizeof(params_t)` bytes stores the caller's
bytes as the new parameter record, returns `sizeof(params_t)` as the byte
count consumed, and every command value (the first 32-bit word) is accepted
by the dispatch `switch`, whose only branch is a state-preserving default. -/
theorem write_success (buffer : List Nat) (s : ModuleState)
    (hbuf : buffer.length = sizeof_params) :
    (wy_module_write buffer sizeof_params s).1 = (sizeof_params : Int) ∧
    (wy_module_write buffer sizeof_params s).2.params = buffer ∧
    decode_params (wy_module_write buffer sizeof_params s).2.params =
      decode_params buffer ∧
    (∀ c t, wy_module_cmd_dispatch c t = t) := by
  have htake : buffer.take sizeof_params = buffer := by
    rw [← hbuf]; exact List.take_length buffer
  refine ⟨?_, ?_, ?_, fun c t => rfl⟩
  · simp [wy_module_write, wy_module_cmd_dispatch]
  · simp [wy_module_write, wy_module_cmd_dispatch, htake]
  · simp [wy_module_write, wy_module_cmd_dispatch, htake]

/-- Closed instance of C6 at a concrete 12-byte record. -/
theorem write_success_witness :
    (wy_module_write [7, 0, 0, 0, 0, 16, 0, 0, 64, 0, 0, 0]
        sizeof_params initState).1 = (sizeof_params : Int) ∧
    (wy_module_write [7, 0, 0, 0, 0, 16, 0, 0, 64, 0, 0, 0]
        sizeof_params initState).2.params =
      [7, 0, 0, 0, 0, 16, 0, 0, 64, 0, 0, 0] := by
  have h := write_success [7, 0, 0, 0, 0, 16, 0, 0, 64, 0, 0, 0]
    initState (by decide)
  exact ⟨h.1, h.2.1⟩

/-- Helper: a single operation keeps the holder count in {0, 1}. -/
theorem step_count_mem (s : ModuleState) (op : Op)
    (h : s.wy_module_open_count = 0 ∨ s.wy_module_open_count = 1) :
    (step s op).wy_module_open_count = 0 ∨
    (step s op).wy_module_open_count = 1 := by
  cases op <;>
    simp only [step, wy_module_open, wy_module_release, wy_module_read,
      wy_module_write, wy_module_cmd_dispatch] <;>
    split_ifs <;> simp_all

/-- Helper: the holder count stays in {0, 1} along any fold of steps. -/
theorem foldl_step_count_mem (ops : List Op) :
    ∀ s : ModuleState,
      s.wy_module_open_count = 0 ∨ s.wy_module_open_count = 1 →
      (ops.foldl step s).wy_module_open_count = 0 ∨
      (ops.foldl step s).wy_module_open_count = 1 := by
  induction ops with
  | nil => exact fun s h => h
  | cons op ops ih => exact fun s h => ih _ (step_count_mem s op h)

/-- C5: in every state reachable from the initial state by acquire, release,
read, and write operations, the holder count is 0 or 1, and the read and
write operations never change it (only acquire and release do). -/
theorem holder_count_invariant :
    (∀ ops : List Op,
      (run ops).wy_module_open_count = 0 ∨
      (run ops).wy_module_open_count = 1) ∧
    (∀ (s : ModuleState) (len : Nat),
      (wy_module_read len s).2.2.wy_module_open_count =
        s.wy_module_open_count) ∧
    (∀ (s : ModuleState) (buffer : List Nat) (len : Nat),
      (wy_module_write buffer len s).2.wy_module_open_count =
        s.wy_module_open_count) := by
  refine ⟨fun ops => foldl_step_count_mem ops initState (Or.inl rfl), ?_, ?_⟩
  · intro s len
    simp only [wy_module_read]; split_ifs <;> rfl
  · intro s buffer len
    simp only [wy_module_write, wy_module_cmd_dispatch]
    split_ifs <;> rfl

/-- C3: a write of a full-size byte sequence followed by a same-length read
returns the identical byte sequence; decoding the encoding of a valid record
gives back the record; and encoding the decoding of a full-size byte
sequence gives back the bytes. -/
theorem codec_roundtrip (s : ModuleState) (buffer : List Nat) (p : params_t)
    (bytes : List Nat)
    (hbuf : buffer.length = sizeof_params)
    (hp : p.Valid)
    (hlen : bytes.length = sizeof_params)
    (hbytes : ∀ b ∈ bytes, b < 256) :
    (wy_module_read sizeof_params
        (wy_module_write buffer sizeof_params s).2).2.1 = buffer ∧
    decode_params (encode_params p) = some p ∧
    (decode_params bytes).map encode_params = some bytes := by
  have htake : buffer.take sizeof_params = buffer := by
    rw [← hbuf]; exact List.take_length buffer
  refine ⟨?_, ?_, ?_⟩
  · simp [wy_module_write, wy_module_read, wy_module_cmd_dispatch, htake]
  · obtain ⟨c, a, l⟩ := p
    simp only [params_t.Valid] at hp
    obtain ⟨h1, h2, h3⟩ := hp
    simp only [encode_params, toBytesLE4, List.cons_append, List.nil_append,
      decode_params, fromBytesLE4, Option.some.injEq, params_t.mk.injEq]
    refine ⟨?_, ?_, ?_⟩ <;> omega
  · rcases bytes with _ | ⟨b0, _ | ⟨b1, _ | ⟨b2, _ | ⟨b3, _ | ⟨b4, _ |
      ⟨b5, _ | ⟨b6, _ | ⟨b7, _ | ⟨b8, _ | ⟨b9, _ | ⟨b10, _ | ⟨b11, _ |
      ⟨b12, rest⟩⟩⟩⟩⟩⟩⟩⟩⟩⟩⟩⟩⟩ <;>
      simp_all [sizeof_params, decode_params, encode_params, toBytesLE4,
        fromBytesLE4]
    omega

/-- Closed instance of C3 at the spec's example record
`{cmd = 7, targetAddress = 0x1000, length = 64}`. -/
theorem codec_roundtrip_witness :
    (wy_module_read sizeof_params
        (wy_module_write [7, 0, 0, 0, 0, 16, 0, 0, 64, 0, 0, 0]
          sizeof_params initState).2).2.1 =
      [7, 0, 0, 0, 0, 16, 0, 0, 64, 0, 0, 0] ∧
    decode_params (encode_params ⟨7, 4096, 64⟩) = some ⟨7, 4096, 64⟩ ∧
    (decode_params [7, 0, 0, 0, 0, 16, 0, 0, 64, 0, 0, 0]).map encode_params =
      some [7, 0, 0, 0, 0, 16, 0, 0, 64, 0, 0, 0] :=
  codec_roundtrip initState [7, 0, 0, 0, 0, 16, 0, 0, 64, 0, 0, 0]
    ⟨7, 4096, 64⟩ [7, 0, 0, 0, 0, 16, 0, 0, 64, 0, 0, 0]
    (by decide) ⟨by norm_num, by norm_num, by norm_num⟩ (by decide) (by decide)

/-- C7: when registration succeeds and the class-bind step fails,
`wy_module_init` deregisters the identifier obtained in step 1 and returns
the class-bind step's own failure code; the result is the same for every
error the (unobservable, void-returning) rollback deregistration may hit. -/
theorem classbind_rollback (a : Authority)
    (hreg : 0 ≤ a.register_chrdev_result)
    (hclass : a.class_create_ok = false) :
    wy_module_init a =
      (a.class_create_err,
        [.registerChrdev, .classCreate, .unregisterChrdev]) ∧
    (∀ e : Int,
      (wy_module_init { a with unregister_chrdev_err := e }).1 =
        a.class_create_err) := by
  have hnot : ¬a.register_chrdev_result < 0 := not_lt.mpr hreg
  constructor
  · simp [wy_module_init, hnot, hclass]
  · intro e; simp [wy_module_init, hnot, hclass]

/-- Closed instance of C7 at a concrete failing authority. -/
theorem classbind_rollback_witness :
    wy_module_init
      { register_chrdev_result := 240, class_create_ok := false,
        class_create_err := -12, device_create_ok := true,
        device_create_err := 0, unregister_chrdev_err := -5 } =
      (-12, [.registerChrdev, .classCreate, .unregisterChrdev]) :=
  (classbind_rollback
    { register_chrdev_result := 240, class_create_ok := false,
      class_create_err := -12, device_create_ok := true,
      device_create_err := 0, unregister_chrdev_err := -5 }
    (by decide) rfl).1

/-- C8: when the expose (device-create) step fails after registration and
class binding succeeded, `wy_module_init` rolls back in strict reverse
order — class destroy strictly before chrdev deregister — returns the
expose step's failure code, and afterwards no resource from an earlier
successful step remains held: the chrdev and class create/destroy counts
balance, and no destroy targets the never-created device. -/
theorem expose_rollback (a : Authority)
    (hreg : 0 ≤ a.register_chrdev_result)
    (hclass : a.class_create_ok = true)
    (hdev : a.device_create_ok = false) :
    wy_module_init a =
      (a.device_create_err,
        [.registerChrdev, .classCreate, .deviceCreate, .classDestroy,
         .unregisterChrdev]) ∧
    (wy_module_init a).2.indexOf AuthCall.classDestroy <
      (wy_module_init a).2.indexOf AuthCall.unregisterChrdev ∧
    (wy_module_init a).2.count AuthCall.registerChrdev =
      (wy_module_init a).2.count AuthCall.unregisterChrdev ∧
    (wy_module_init a).2.count AuthCall.classCreate =
      (wy_module_init a).2.count AuthCall.classDestroy ∧
    (wy_module_init a).2.count AuthCall.deviceDestroy = 0 := by
  have hnot : ¬a.register_chrdev_result < 0 := not_lt.mpr hreg
  have htr : wy_module_init a =
      (a.device_create_err,
        [.registerChrdev, .classCreate, .deviceCreate, .classDestroy,
         .unregisterChrdev]) := by
    simp [wy_module_init, hnot, hclass, hdev]
  have htr2 : (wy_module_init a).2 =
      [.registerChrdev, .classCreate, .deviceCreate, .classDestroy,
       .unregisterChrdev] := by rw [htr]
  refine ⟨htr, ?_, ?_, ?_, ?_⟩ <;> rw [htr2] <;> decide

/-- Closed instance of C8 at a concrete failing authority. -/
theorem expose_rollback_witness :
    wy_module_init
      { register_chrdev_result := 240, class_create_ok := true,
        class_create_err := 0, device_create_ok := false,
        device_create_err := -19, unregister_chrdev_err := 0 } =
      (-19, [.registerChrdev, .classCreate, .deviceCreate, .classDestroy,
             .unregisterChrdev]) ∧
    (wy_module_init
        { register_chrdev_result := 240, class_create_ok := true,
          class_create_err := 0, device_create_ok := false,
          device_create_err := -19, unregister_chrdev_err := 0 }).2.count
      AuthCall.deviceDestroy = 0 := by
  have h := expose_rollback
    { register_chrdev_result := 240, class_create_ok := true,
      class_create_err := 0, device_create_ok := false,
      device_create_err := -19, unregister_chrdev_err := 0 }
    (by decide) rfl rfl
  exact ⟨h.1, h.2.2.2.2⟩

/-- C9: from a fully successful init (the Exposed state), `wy_module_exit`
performs device destroy, class unregister, class destroy, chrdev deregister
in that fixed order for every module state (any holder count); over the
whole init-and-exit trace each authority resource is released exactly once
and the held-resource state returns to `Unregistered`. -/
theorem teardown_order (s : ModuleState) (a : Authority)
    (hreg : 0 ≤ a.register_chrdev_result)
    (hclass : a.class_create_ok = true)
    (hdev : a.device_create_ok = true) :
    wy_module_exit s =
      [.deviceDestroy, .classUnregister, .classDestroy, .unregisterChrdev] ∧
    ((wy_module_init a).2 ++ wy_module_exit s).count
        AuthCall.deviceDestroy = 1 ∧
    ((wy_module_init a).2 ++ wy_module_exit s).count
        AuthCall.classUnregister = 1 ∧
    ((wy_module_init a).2 ++ wy_module_exit s).count
        AuthCall.classDestroy = 1 ∧
    ((wy_module_init a).2 ++ wy_module_exit s).count
        AuthCall.unregisterChrdev = 1 ∧
    endpointStateOf ((wy_module_init a).2 ++ wy_module_exit s) =
      .Unregistered := by
  have hnot : ¬a.register_chrdev_result < 0 := not_lt.mpr hreg
  have htr : (wy_module_init a).2 =
      [.registerChrdev, .classCreate, .deviceCreate] := by
    simp [wy_module_init, hnot, hclass, hdev]
  refine ⟨rfl, ?_, ?_, ?_, ?_, ?_⟩ <;> rw [htr] <;>
    simp only [wy_module_exit] <;> decide

/-- Closed instance of C9 at a held state (holder count 1 at teardown). -/
theorem teardown_order_witness :
    wy_module_exit { wy_module_open_count := 1, params := [] } =
      [.deviceDestroy, .classUnregister, .classDestroy, .unregisterChrdev] ∧
    endpointStateOf
      ((wy_module_init
          { register_chrdev_result := 240, class_create_ok := true,
            class_create_err := 0, device_create_ok := true,
            device_create_err := 0, unregister_chrdev_err := 0 }).2 ++
        wy_module_exit { wy_module_open_count := 1, params := [] }) =
      .Unregistered := by
  have h := teardown_order { wy_module_open_count := 1, params := [] }
    { register_chrdev_result := 240, class_create_ok := true,
      class_create_err := 0, device_create_ok := true,
      device_create_err := 0, unregister_chrdev_err := 0 }
    (by decide) rfl rfl
  exact ⟨h.1, h.2.2.2.2.2⟩

end WyModule
